import Mathlib

/-!
Verification of the payment-gateway repository (several near-duplicate
Express services around the Airwallex API).  The source files are shallowly
embedded: each HTTP handler becomes a pure Lean function from a request, the
in-memory ledger state and an oracle for the outbound network calls to an
outcome record (HTTP status, response body, new ledger state, list of
outbound calls performed).  JavaScript truthiness, `toUpperCase`,
whitespace stripping and `slice(-4)` are modelled explicitly.

Source variants covered (the repository concatenates several versions of
the same server):
* `server.js` lines 172-356  - "receiver" variant: webhook pushes payments.
* `server.js` lines 357-802  - "keyed" variant: simulation keyed on the API
  key, confirm branches on the stored intent `simulation` flag.
* `server.js` lines 803-1172 - "HPP fallback" variant (same confirm shape
  as `part_004`).
* `unnamed/part_000`         - "live" variant: real API only, webhook pushes
  payments, order-id lookup.
* `unnamed/part_004`         - "auth" variant: login-token flow, simulation
  fallback on upstream failure.
-/

namespace Account

/-- JavaScript truthiness of a possibly-missing number field
(`undefined`, `0` and `NaN` are falsy; the model covers `undefined`/`0`). -/
def jsTruthyInt : Option Int → Bool
  | none => false
  | some a => a != 0

/-- JavaScript truthiness of a possibly-missing string field
(`undefined` and the empty string are falsy). -/
def jsTruthyStr : Option String → Bool
  | none => false
  | some s => s != ""

/-- Default-currency expression of the handlers: the given currency when
truthy, otherwise the literal USD. -/
def jsCurrency (c : Option String) : String :=
  if jsTruthyStr c then c.getD "" else "USD"

/-- First truthy value of two possibly-missing string fields, defaulting to
the empty string - the expression the auth variants use to normalize the
status field of a confirm response before uppercasing. -/
def firstTruthyStr (a b : Option String) : String :=
  if jsTruthyStr a then a.getD ""
  else if jsTruthyStr b then b.getD ""
  else ""

/-- ASCII model of the JavaScript string uppercasing method. -/
def jsToUpper (s : String) : String := String.mk (s.data.map Char.toUpper)

/-- ASCII model of the JavaScript string lowercasing method. -/
def jsToLower (s : String) : String := String.mk (s.data.map Char.toLower)

/-- Characters matched by the `\s` regex class (ASCII fragment). -/
def isJsWhitespace (c : Char) : Bool :=
  c == ' ' || c == '\t' || c == '\n' || c == '\r'

/-- Model of the replace-all-whitespace call applied to card numbers:
strip every whitespace character. -/
def stripWhitespace (s : String) : String :=
  String.mk (s.data.filter (fun c => !isJsWhitespace c))

/-- Model of `s.slice(-4)`: the last four characters, or the whole string when it has
at most four characters. -/
def sliceLast4 (s : String) : String :=
  String.mk (s.data.drop (s.data.length - 4))

/-- Customer block of an intent-creation request
(`customer:{email, firstName, lastName}`).  Every field may be absent. -/
structure Customer where
  email : Option String
  firstName : Option String
  lastName : Option String
deriving DecidableEq

/-- Card block of a confirm request
(`paymentMethod.card = {number, exp_month, exp_year, cvc}`). -/
structure CardInput where
  number : String
  exp_month : Int
  exp_year : Int
  cvc : String
deriving DecidableEq

/-- Billing block of a confirm request. -/
structure Billing where
  first_name : String
  last_name : String
  email : String
deriving DecidableEq

/-- Metadata optionally attached to `paymentMethod` (used by the
`part_000` confirm handler: `paymentMethod.metadata?.plan` etc). -/
structure PMMetadata where
  plan : Option String
  vin : Option String
  order_id : Option String
deriving DecidableEq

/-- The `paymentMethod` object of a confirm request. -/
structure PaymentMethodInput where
  card : CardInput
  billing : Billing
  metadata : Option PMMetadata
deriving DecidableEq

/-- Body of `POST /api/create-payment-intent`. -/
structure CreateIntentRequest where
  amount : Option Int
  currency : Option String
  plan : Option String
  vin : Option String
  orderId : Option String
  customer : Option Customer
deriving DecidableEq

/-- Body of `POST /api/confirm-payment`. -/
structure ConfirmRequest where
  paymentIntentId : Option String
  paymentMethod : Option PaymentMethodInput
deriving DecidableEq

/-- A stored payment intent (`localPaymentIntent` in the handlers).  The
`part_000` variant stores no `simulation` key; a missing key is falsy in
JavaScript, modelled as `simulation := false`. -/
structure PaymentIntent where
  id : String
  client_secret : Option String
  amount : Int
  currency : String
  status : String
  plan : Option String
  vin : Option String
  orderId : Option String
  customer : Customer
  created_at : String
  simulation : Bool
deriving DecidableEq

/-- Ghost provenance marker: which handler appended a payment record.  This
is verification instrumentation only - the source records carry no such
field, and no modelled lookup or handler ever reads it. -/
inductive POrigin where
  | confirm
  | webhook
deriving DecidableEq

/-- A stored payment record (`paymentRecord` in the handlers).  Fields that
some creation sites leave out of the JavaScript object literal are
`Option`s set to `none` there (webhook records have no `payment_intent_id`,
`order_id` or `card_last4` key). -/
structure Payment where
  id : Option String
  payment_intent_id : Option String
  status : String
  amount : Int
  currency : String
  plan : Option String
  vin : Option String
  order_id : Option String
  customer_email : Option String
  card_last4 : Option String
  payment_method : Option String
  simulation : Option Bool
  created_at : String
  metadata_order_id : Option String
  origin : POrigin
deriving DecidableEq

/-- The in-memory ledger: the `paymentIntents` and `payments` arrays. -/
structure LedgerState where
  paymentIntents : List PaymentIntent
  payments : List Payment
deriving DecidableEq

/-- The card-validation errors returned by `validateCardDetails` (the
variants differ only in their message strings, not in which check fires). -/
inductive CardError where
  | invalidNumber
  | invalidMonth
  | expired
  | invalidCVV
deriving DecidableEq

/-- Function `validateCardDetails(card)` - identical in `server.js` (both copies),
`part_000` and `part_004`.  The current date read from `new Date()` is
passed in as `(currentYear, currentMonth)`. -/
def validateCardDetails (currentYear currentMonth : Int) (card : CardInput) :
    Option CardError :=
  let cleanNumber := stripWhitespace card.number
  if cleanNumber = "" ∨ cleanNumber.length < 15 ∨ cleanNumber.length > 19 then
    some .invalidNumber
  else if card.exp_month < 1 ∨ card.exp_month > 12 then
    some .invalidMonth
  else if card.exp_year < currentYear ∨
      (card.exp_year = currentYear ∧ card.exp_month < currentMonth) then
    some .expired
  else if card.cvc = "" ∨ card.cvc.length < 3 ∨ card.cvc.length > 4 then
    some .invalidCVV
  else
    none

theorem length_zero_eq_empty (s : String) (h : s.length = 0) : s = "" := by
  cases s with
  | mk data =>
    cases data with
    | nil => rfl
    | cons a l => simp [String.length] at h

theorem validateCardDetails_none_iff (y m : Int) (card : CardInput) :
    validateCardDetails y m card = none ↔
      (15 ≤ (stripWhitespace card.number).length ∧
       (stripWhitespace card.number).length ≤ 19 ∧
       1 ≤ card.exp_month ∧ card.exp_month ≤ 12 ∧
       (y < card.exp_year ∨ (card.exp_year = y ∧ m ≤ card.exp_month)) ∧
       (card.cvc.length = 3 ∨ card.cvc.length = 4)) := by
  unfold validateCardDetails
  simp only
  split_ifs with h1 h2 h3 h4
  · refine iff_of_false (by simp) ?_
    rintro ⟨hA, hB, -⟩
    rcases h1 with h | h | h
    · rw [h] at hA; simp [String.length] at hA
    · omega
    · omega
  · refine iff_of_false (by simp) ?_
    rintro ⟨-, -, hm1, hm2, -⟩
    rcases h2 with h | h <;> omega
  · refine iff_of_false (by simp) ?_
    rintro ⟨-, -, -, -, hexp, -⟩
    rcases h3 with h | ⟨ha, hb⟩ <;> rcases hexp with h3 | ⟨h4, h5⟩ <;> omega
  · refine iff_of_false (by simp) ?_
    rintro ⟨-, -, -, -, -, hcvc⟩
    rcases h4 with h | h | h
    · rw [h] at hcvc; simp [String.length] at hcvc
    · omega
    · omega
  · refine iff_of_true rfl ?_
    push_neg at h1 h2 h3 h4
    obtain ⟨he1, he2, he3⟩ := h1
    obtain ⟨hc1, hc2, hc3⟩ := h4
    refine ⟨by omega, by omega, by omega, by omega, ?_, by omega⟩
    obtain ⟨hy1, hy2⟩ := h3
    rcases lt_or_eq_of_le hy1 with h | h
    · exact Or.inl h
    · exact Or.inr ⟨h.symm, hy2 h.symm⟩

theorem stripWhitespace_length_le (s : String) :
    (stripWhitespace s).length ≤ s.length :=
  List.length_filter_le _ s.data

theorem sliceLast4_length (s : String) :
    (sliceLast4 s).length = s.length - (s.length - 4) := by
  show (s.data.drop (s.data.length - 4)).length = s.data.length - (s.data.length - 4)
  exact List.length_drop _ _

theorem sliceLast4_ne_of_valid (y m : Int) (c : CardInput)
    (h : validateCardDetails y m c = none) : sliceLast4 c.number ≠ c.number := by
  have h15 : 15 ≤ (stripWhitespace c.number).length :=
    ((validateCardDetails_none_iff y m c).mp h).1
  have hlen : 15 ≤ c.number.length :=
    le_trans h15 (stripWhitespace_length_le c.number)
  intro heq
  have := sliceLast4_length c.number
  rw [heq] at this
  omega

/-- Ambient data a handler invocation reads from the runtime: the current
date (for `new Date()` in the expiry check and the ISO timestamps) and the
values produced by `Math.random().toString(36)` / `Date.now()`. -/
structure Env where
  year : Int
  month : Int
  nowISO : String
  nowTag : String
  rand1 : String
  rand2 : String
deriving DecidableEq

/-- Outcome of one outbound `fetch`: either a parsed 2xx body or a thrown
error (non-2xx response or network failure). -/
inductive NetResult (α : Type) where
  | ok (val : α)
  | err (msg : String)
deriving DecidableEq

/-- Which outbound Airwallex calls a handler performed, in order. -/
inductive NetCall where
  | login
  | createIntent
  | confirmIntent
deriving DecidableEq

/-- Parsed 2xx body of the intent-creation API call. -/
structure AwxIntentResponse where
  id : String
  client_secret : Option String
  status : String
deriving DecidableEq

/-- Parsed 2xx body of the confirm API call.  `status`/`payment_status` may
each be absent; `last_payment_error_code` models
`paymentResult.last_payment_error?.code`. -/
structure AwxConfirmResponse where
  id : Option String
  status : Option String
  payment_status : Option String
  amount : Int
  currency : String
  last_payment_error_code : Option String
  payment_method_type : Option String
deriving DecidableEq

/-- Oracle for the auth-variant flows that first call the login endpoint:
the login result and, when reached, the follow-up call result. -/
structure CreateOracle where
  token : NetResult String
  create : NetResult AwxIntentResponse
deriving DecidableEq

/-- Oracle for the auth-variant confirm flow. -/
structure ConfirmOracle where
  token : NetResult String
  confirm : NetResult AwxConfirmResponse
deriving DecidableEq

/-- Processor configuration of the keyed variant (`server.js` lines
357-802), which only consults `process.env.AIRWALLEX_API_KEY`. -/
structure KeyedConfig where
  apiKey : Option String
deriving DecidableEq

/-- Processor configuration of the auth variants (`part_004` and the HPP
fallback variant), which consult both `API_KEY` and `CLIENT_ID`. -/
structure AuthConfig where
  apiKey : Option String
  clientId : Option String
deriving DecidableEq

/-- Response body of `POST /api/create-payment-intent`. -/
inductive CreateBody where
  | intent (pi : PaymentIntent)
  | missingFields
  | failed (details : String)
deriving DecidableEq

/-- Full outcome of one create-intent handler invocation. -/
structure CreateOutcome where
  httpStatus : Nat
  body : CreateBody
  state : LedgerState
  calls : List NetCall
deriving DecidableEq

/-- Normalized success payload returned by a confirm handler (`res.json` on
the 200 path).  `id` is `Option` because the keyed variant forwards the
processor `paymentResult.id` verbatim, which may be absent; `simulation` is
the optional `simulation: true` key of the simulated result. -/
structure SuccessPayload where
  id : Option String
  status : String
  amount : Int
  currency : String
  payment_method : String
  card_last4 : String
  timestamp : String
  simulation : Option Bool
deriving DecidableEq

/-- Response body of `POST /api/confirm-payment`.  `declinedWithCode`
models the failure JSON that includes a `decline_code` key (keyed variant,
`part_000`); `declinedNoCode` the failure JSON without one (`part_004`,
HPP fallback variant). -/
inductive ConfirmBody where
  | missingFields
  | notFound
  | cardError (e : CardError)
  | success (p : SuccessPayload)
  | declinedNoCode (status : Option String)
  | declinedWithCode (status : Option String) (decline_code : Option String)
  | gatewayError (details : String)
  | notConfigured
  | serverError (details : String)
deriving DecidableEq

/-- Full outcome of one confirm handler invocation. -/
structure ConfirmOutcome where
  httpStatus : Nat
  body : ConfirmBody
  state : LedgerState
  calls : List NetCall
deriving DecidableEq

/-- The condition `!amount || !customer || !customer.email` guarding every
create-intent handler. -/
def missingRequiredFields (req : CreateIntentRequest) : Bool :=
  !jsTruthyInt req.amount ||
    (match req.customer with
     | none => true
     | some c => !jsTruthyStr c.email)

/-- Function `createSimulatedPaymentIntent(req, res)` from `part_004` lines 334-361
(textually identical in the HPP fallback variant, and inlined in the keyed
variant at `server.js` lines 401-437): synthesize a `pi_sim_` intent with
status `requires_payment_method` and `simulation: true`, push it, return
it.  The handlers only call this after validating `amount` and
`customer.email`, so the `getD` defaults are never the stored values on any
reachable call. -/
def createSimulatedPaymentIntent (env : Env) (req : CreateIntentRequest)
    (s : LedgerState) : CreateOutcome :=
  let pi : PaymentIntent :=
    { id := "pi_sim_" ++ env.rand1
      client_secret := some ("pi_sim_" ++ env.rand2 ++ "_secret")
      amount := req.amount.getD 0
      currency := jsCurrency req.currency
      status := "requires_payment_method"
      plan := req.plan
      vin := req.vin
      orderId := req.orderId
      customer := req.customer.getD ⟨none, none, none⟩
      created_at := env.nowISO
      simulation := true }
  ⟨200, .intent pi, { s with paymentIntents := s.paymentIntents ++ [pi] }, []⟩

/-- Handler `POST /api/create-payment-intent` of the keyed variant (`server.js`
lines 382-494).  The request log at lines 386-393 reads `customer.email`
before validation, so a request without a `customer` object raises a
TypeError that the outer catch turns into a 500.  With the API key absent
the inline simulation block (lines 401-437) runs; otherwise the Airwallex
call is made and a thrown upstream error becomes a 500 (lines 482-493). -/
def createPaymentIntentKeyed (cfg : KeyedConfig) (env : Env)
    (oracle : NetResult AwxIntentResponse) (req : CreateIntentRequest)
    (s : LedgerState) : CreateOutcome :=
  match req.customer with
  | none => ⟨500, .failed "TypeError: cannot read email of undefined", s, []⟩
  | some customer =>
    if !jsTruthyInt req.amount || !jsTruthyStr customer.email then
      ⟨400, .missingFields, s, []⟩
    else if !jsTruthyStr cfg.apiKey then
      createSimulatedPaymentIntent env req s
    else
      match oracle with
      | .err msg =>
        ⟨500, .failed ("Airwallex service unavailable: " ++ msg), s,
          [.createIntent]⟩
      | .ok r =>
        let pi : PaymentIntent :=
          { id := r.id
            client_secret := r.client_secret
            amount := req.amount.getD 0
            currency := jsCurrency req.currency
            status := r.status
            plan := req.plan
            vin := req.vin
            orderId := req.orderId
            customer := customer
            created_at := env.nowISO
            simulation := false }
        ⟨200, .intent pi,
          { s with paymentIntents := s.paymentIntents ++ [pi] },
          [.createIntent]⟩

/-- Handler `POST /api/create-payment-intent` of the auth variant (`part_004`
lines 83-151): validate, fall back to simulation when either credential is
missing, otherwise login then create; any upstream error (login or create)
is caught and answered by the simulation fallback instead of a 500. -/
def createPaymentIntentAuth (cfg : AuthConfig) (env : Env)
    (oracle : CreateOracle) (req : CreateIntentRequest)
    (s : LedgerState) : CreateOutcome :=
  match req.customer with
  | none => ⟨400, .missingFields, s, []⟩
  | some customer =>
    if !jsTruthyInt req.amount || !jsTruthyStr customer.email then
      ⟨400, .missingFields, s, []⟩
    else if !jsTruthyStr cfg.apiKey || !jsTruthyStr cfg.clientId then
      createSimulatedPaymentIntent env req s
    else
      match oracle.token with
      | .err _ => { createSimulatedPaymentIntent env req s with calls := [.login] }
      | .ok _ =>
        match oracle.create with
        | .err _ =>
          { createSimulatedPaymentIntent env req s with
              calls := [.login, .createIntent] }
        | .ok r =>
          let pi : PaymentIntent :=
            { id := r.id
              client_secret := r.client_secret
              amount := req.amount.getD 0
              currency := jsCurrency req.currency
              status := r.status
              plan := req.plan
              vin := req.vin
              orderId := req.orderId
              customer := customer
              created_at := env.nowISO
              simulation := false }
          ⟨200, .intent pi,
            { s with paymentIntents := s.paymentIntents ++ [pi] },
            [.login, .createIntent]⟩

/-- Handler `POST /api/create-payment-intent` of the live variant (`part_000`
lines 36-96): validate, then always call the real API (no simulation
branch); on upstream error the catch answers 500 and stores nothing.  The
stored intent has no `simulation` key, modelled as `simulation := false`. -/
def createPaymentIntentLive (env : Env)
    (oracle : NetResult AwxIntentResponse) (req : CreateIntentRequest)
    (s : LedgerState) : CreateOutcome :=
  if missingRequiredFields req then
    ⟨400, .missingFields, s, []⟩
  else
    match oracle with
    | .err msg => ⟨500, .failed msg, s, [.createIntent]⟩
    | .ok r =>
      let pi : PaymentIntent :=
        { id := r.id
          client_secret := r.client_secret
          amount := req.amount.getD 0
          currency := jsCurrency req.currency
          status := r.status
          plan := req.plan
          vin := req.vin
          orderId := req.orderId
          customer := req.customer.getD ⟨none, none, none⟩
          created_at := env.nowISO
          simulation := false }
      ⟨200, .intent pi,
        { s with paymentIntents := s.paymentIntents ++ [pi] },
        [.createIntent]⟩

/-- Success test of the auth-variant confirm handlers (`part_004` lines
231-233, `server.js` lines 1034-1036): uppercase
`status || payment_status` (empty when both falsy) and compare against `SUCCEEDED`,
`SUCCESS`, `CAPTURED`. -/
def confirmSuccessStatusAuth (r : AwxConfirmResponse) : Bool :=
  let st := jsToUpper (firstTruthyStr r.status r.payment_status)
  st == "SUCCEEDED" || st == "SUCCESS" || st == "CAPTURED"

/-- Success test of the keyed and live confirm handlers (`server.js` line
561, `part_000` line 119): the RAW status strictly equals `SUCCEEDED` or
`REQUIRES_CAPTURE` (no uppercasing). -/
def confirmSuccessStatusRaw (r : AwxConfirmResponse) : Bool :=
  r.status == some "SUCCEEDED" || r.status == some "REQUIRES_CAPTURE"

/-- Result object built by `processSimulatedPayment` (`server.js` lines
705-721 and 1125-1152, `part_004` lines 363-373): status is always the
literal `succeeded`, amount/currency are read from the stored intent, and
no network call is involved. -/
def processSimulatedPayment (env : Env) (intent : PaymentIntent)
    (pm : PaymentMethodInput) : SuccessPayload :=
  { id := some ("pay_sim_" ++ env.rand1)
    status := "succeeded"
    amount := intent.amount
    currency := intent.currency
    payment_method := "card"
    card_last4 := sliceLast4 pm.card.number
    timestamp := env.nowISO
    simulation := some true }

/-- Function `processSimulatedPayment(paymentIntent, paymentMethod, res)` of the
auth variant (`part_004` lines 363-392): build the simulated result, push
the payment record (intent amount/currency, `payment_intent_id` of the
found intent) and answer 200. -/
def processSimulatedPaymentAuth (env : Env) (intent : PaymentIntent)
    (pm : PaymentMethodInput) (s : LedgerState) : ConfirmOutcome :=
  let result := processSimulatedPayment env intent pm
  let record : Payment :=
    { id := result.id
      payment_intent_id := some intent.id
      status := "succeeded"
      amount := intent.amount
      currency := intent.currency
      plan := intent.plan
      vin := intent.vin
      order_id := intent.orderId
      customer_email := intent.customer.email
      card_last4 := some (sliceLast4 pm.card.number)
      payment_method := none
      simulation := some true
      created_at := env.nowISO
      metadata_order_id := none
      origin := .confirm }
  ⟨200, .success result, { s with payments := s.payments ++ [record] }, []⟩

/-- Handler `POST /api/confirm-payment` of the keyed variant (`server.js` lines
497-623).  The request log at lines 501-506 dereferences
`paymentMethod.card.number` before any check, so a request without a
`paymentMethod` raises a TypeError answered as 500.  Then: lookup-or-404,
card validation, the simulation branch keyed on the stored intent
`simulation` flag (its `status === succeeded` guard always holds because
`processSimulatedPayment` returns the literal `succeeded`), and otherwise
the real confirm call whose raw status is compared against `SUCCEEDED` and
`REQUIRES_CAPTURE`; the payment record and the success payload use the
processor response amount/currency. -/
def confirmPaymentKeyed (cfg : KeyedConfig) (env : Env)
    (oracle : NetResult AwxConfirmResponse) (req : ConfirmRequest)
    (s : LedgerState) : ConfirmOutcome :=
  match req.paymentMethod with
  | none => ⟨500, .serverError "TypeError: cannot read card of undefined", s, []⟩
  | some pm =>
    match s.paymentIntents.find? (fun pi => some pi.id == req.paymentIntentId) with
    | none => ⟨404, .notFound, s, []⟩
    | some intent =>
      match validateCardDetails env.year env.month pm.card with
      | some e => ⟨400, .cardError e, s, []⟩
      | none =>
        if intent.simulation then
          let result := processSimulatedPayment env intent pm
          let record : Payment :=
            { id := some ("pay_sim_" ++ env.rand2)
              payment_intent_id := req.paymentIntentId
              status := "succeeded"
              amount := intent.amount
              currency := intent.currency
              plan := intent.plan
              vin := intent.vin
              order_id := intent.orderId
              customer_email := intent.customer.email
              card_last4 := some (sliceLast4 pm.card.number)
              payment_method := none
              simulation := some true
              created_at := env.nowISO
              metadata_order_id := none
              origin := .confirm }
          ⟨200, .success result,
            { s with payments := s.payments ++ [record] }, []⟩
        else if jsTruthyStr cfg.apiKey then
          match oracle with
          | .err msg => ⟨500, .gatewayError msg, s, [.confirmIntent]⟩
          | .ok r =>
            if confirmSuccessStatusRaw r then
              let record : Payment :=
                { id := r.id
                  payment_intent_id := req.paymentIntentId
                  status := jsToLower (r.status.getD "")
                  amount := r.amount
                  currency := r.currency
                  plan := intent.plan
                  vin := intent.vin
                  order_id := intent.orderId
                  customer_email := intent.customer.email
                  card_last4 := some (sliceLast4 pm.card.number)
                  payment_method := r.payment_method_type
                  simulation := some false
                  created_at := env.nowISO
                  metadata_order_id := none
                  origin := .confirm }
              ⟨200,
                .success
                  { id := r.id
                    status := "succeeded"
                    amount := r.amount
                    currency := r.currency
                    payment_method := "card"
                    card_last4 := sliceLast4 pm.card.number
                    timestamp := env.nowISO
                    simulation := none },
                { s with payments := s.payments ++ [record] },
                [.confirmIntent]⟩
            else
              ⟨400, .declinedWithCode r.status r.last_payment_error_code, s,
                [.confirmIntent]⟩
        else
          ⟨500, .notConfigured, s, []⟩

/-- Handler `POST /api/confirm-payment` of the auth variant (`part_004` lines
193-289, textually matched by the HPP fallback variant at `server.js`
lines 1007-1071 up to error details): missing-field 400, lookup-or-404,
card validation, then a branch on CREDENTIAL absence (not on the intent
`simulation` flag) into either the local simulated processing or the real
login + confirm calls.  The real path normalizes
the uppercased `status || payment_status` fallback chain against `SUCCEEDED`,
`SUCCESS`, `CAPTURED`; its payment record and success payload use the
stored intent amount/currency, and its failure body carries the raw status
but no `decline_code` key. -/
def confirmPaymentAuth (cfg : AuthConfig) (env : Env)
    (oracle : ConfirmOracle) (req : ConfirmRequest)
    (s : LedgerState) : ConfirmOutcome :=
  match req.paymentMethod with
  | none => ⟨400, .missingFields, s, []⟩
  | some pm =>
    if !jsTruthyStr req.paymentIntentId then
      ⟨400, .missingFields, s, []⟩
    else
      match s.paymentIntents.find? (fun pi => some pi.id == req.paymentIntentId) with
      | none => ⟨404, .notFound, s, []⟩
      | some intent =>
        match validateCardDetails env.year env.month pm.card with
        | some e => ⟨400, .cardError e, s, []⟩
        | none =>
          if !jsTruthyStr cfg.apiKey || !jsTruthyStr cfg.clientId then
            processSimulatedPaymentAuth env intent pm s
          else
            match oracle.token with
            | .err msg => ⟨500, .gatewayError msg, s, [.login]⟩
            | .ok _ =>
              match oracle.confirm with
              | .err msg =>
                ⟨500, .gatewayError msg, s, [.login, .confirmIntent]⟩
              | .ok r =>
                if confirmSuccessStatusAuth r then
                  let recId :=
                    if jsTruthyStr r.id then r.id.getD ""
                    else "pay_" ++ env.nowTag
                  let record : Payment :=
                    { id := some recId
                      payment_intent_id := req.paymentIntentId
                      status := "succeeded"
                      amount := intent.amount
                      currency := intent.currency
                      plan := intent.plan
                      vin := intent.vin
                      order_id := intent.orderId
                      customer_email := intent.customer.email
                      card_last4 := some (sliceLast4 pm.card.number)
                      payment_method := none
                      simulation := some false
                      created_at := env.nowISO
                      metadata_order_id := none
                      origin := .confirm }
                  ⟨200,
                    .success
                      { id := some recId
                        status := "succeeded"
                        amount := intent.amount
                        currency := intent.currency
                        payment_method := "card"
                        card_last4 := sliceLast4 pm.card.number
                        timestamp := env.nowISO
                        simulation := none },
                    { s with payments := s.payments ++ [record] },
                    [.login, .confirmIntent]⟩
                else
                  ⟨400, .declinedNoCode r.status, s, [.login, .confirmIntent]⟩

/-- Handler `POST /api/confirm-payment` of the live variant (`part_000` lines
99-172).  The request log dereferences `paymentMethod.card.number`, so a
missing `paymentMethod` is a 500; there is NO intent lookup: after card
validation the real confirm call is always made, the raw status is
compared against `SUCCEEDED`/`REQUIRES_CAPTURE`, and the payment record
uses the processor response amount/currency and the request
`paymentMethod.metadata` for plan/vin/order_id. -/
def confirmPaymentLive (env : Env)
    (oracle : NetResult AwxConfirmResponse) (req : ConfirmRequest)
    (s : LedgerState) : ConfirmOutcome :=
  match req.paymentMethod with
  | none => ⟨500, .serverError "TypeError: cannot read card of undefined", s, []⟩
  | some pm =>
    match validateCardDetails env.year env.month pm.card with
    | some e => ⟨400, .cardError e, s, []⟩
    | none =>
      match oracle with
      | .err msg => ⟨500, .serverError msg, s, [.confirmIntent]⟩
      | .ok r =>
        if confirmSuccessStatusRaw r then
          let record : Payment :=
            { id := r.id
              payment_intent_id := req.paymentIntentId
              status := jsToLower (r.status.getD "")
              amount := r.amount
              currency := r.currency
              plan := pm.metadata.bind (fun md => md.plan)
              vin := pm.metadata.bind (fun md => md.vin)
              order_id := pm.metadata.bind (fun md => md.order_id)
              customer_email := some pm.billing.email
              card_last4 := some (sliceLast4 pm.card.number)
              payment_method := r.payment_method_type
              simulation := none
              created_at := env.nowISO
              metadata_order_id := none
              origin := .confirm }
          ⟨200,
            .success
              { id := r.id
                status := "succeeded"
                amount := r.amount
                currency := r.currency
                payment_method := "card"
                card_last4 := sliceLast4 pm.card.number
                timestamp := env.nowISO
                simulation := none },
            { s with payments := s.payments ++ [record] },
            [.confirmIntent]⟩
        else
          ⟨400, .declinedWithCode r.status r.last_payment_error_code, s,
            [.confirmIntent]⟩

/-- The `data` block of a webhook event envelope. -/
structure WebhookData where
  id : Option String
  amount : Int
  currency : String
  metadata_order_id : Option String
deriving DecidableEq

/-- Webhook event envelope accepted by `POST /api/webhook/airwallex`. -/
structure WebhookEvent where
  type : Option String
  data : Option WebhookData
deriving DecidableEq

/-- Function `handleSuccessfulPayment(paymentData)` (`part_000` lines 327-338,
`server.js` lines 300-311): push a payment record derived from the event
data.  The object literal has no `payment_intent_id`, `order_id` or
`card_last4` key; the event metadata is kept only inside the `metadata`
value, not as a top-level `order_id`. -/
def handleSuccessfulPayment (env : Env) (d : WebhookData)
    (payments : List Payment) : List Payment :=
  payments ++
    [{ id := d.id
       payment_intent_id := none
       status := "succeeded"
       amount := d.amount
       currency := d.currency
       plan := none
       vin := none
       order_id := none
       customer_email := none
       card_last4 := none
       payment_method := none
       simulation := none
       created_at := env.nowISO
       metadata_order_id := d.metadata_order_id
       origin := .webhook }]

/-- Handler `POST /api/webhook/airwallex` of the live variant (`part_000` lines
271-302): dispatch on the event `type`; only `payment_intent.succeeded`
mutates the ledger.  The failed/canceled handlers and the succeeded
handler dereference `paymentData.id` inside their logging, so an event of
those types without a `data` block throws and is answered 400; any other
payload is acknowledged with 200. -/
def airwallexWebhook (env : Env) (ev : WebhookEvent)
    (s : LedgerState) : Nat × LedgerState :=
  match ev.type, ev.data with
  | some "payment_intent.succeeded", some d =>
    (200, { s with payments := handleSuccessfulPayment env d s.payments })
  | some "payment_intent.succeeded", none => (400, s)
  | some "payment_intent.failed", some _ => (200, s)
  | some "payment_intent.failed", none => (400, s)
  | some "payment_intent.canceled", some _ => (200, s)
  | some "payment_intent.canceled", none => (400, s)
  | _, _ => (200, s)

/-- Handler `GET /api/payment/order/:orderId` (`part_000` lines 312-317): first
payment whose `order_id` strictly equals the route parameter.  A record
without the key (`undefined`) never equals a route string. -/
def findPaymentByOrder (s : LedgerState) (orderId : String) : Option Payment :=
  s.payments.find? (fun p => p.order_id == some orderId)

/-- One inbound request to the live variant (`part_000`) application,
together with the oracle values its outbound calls would produce. -/
inductive P0Op where
  | createOp (env : Env) (oracle : NetResult AwxIntentResponse)
      (req : CreateIntentRequest)
  | confirmOp (env : Env) (oracle : NetResult AwxConfirmResponse)
      (req : ConfirmRequest)
  | webhookOp (env : Env) (ev : WebhookEvent)
deriving DecidableEq

/-- Ledger effect of one live-variant request. -/
def p0step (s : LedgerState) : P0Op → LedgerState
  | .createOp env oracle req => (createPaymentIntentLive env oracle req s).state
  | .confirmOp env oracle req => (confirmPaymentLive env oracle req s).state
  | .webhookOp env ev => (airwallexWebhook env ev s).2

/-- Ledger state of the live variant after a sequence of requests, starting
from the empty in-memory arrays. -/
def p0run (ops : List P0Op) : LedgerState :=
  ops.foldl p0step ⟨[], []⟩

/-- One inbound request to the keyed variant (`server.js` lines 357-802)
application.  Its webhook handler (lines 755-764) only logs, so the
webhook operation carries no payload. -/
inductive KeyedOp where
  | createOp (env : Env) (oracle : NetResult AwxIntentResponse)
      (req : CreateIntentRequest)
  | confirmOp (env : Env) (oracle : NetResult AwxConfirmResponse)
      (req : ConfirmRequest)
  | webhookOp
deriving DecidableEq

/-- Ledger effect of one keyed-variant request. -/
def keyedStep (cfg : KeyedConfig) (s : LedgerState) : KeyedOp → LedgerState
  | .createOp env oracle req => (createPaymentIntentKeyed cfg env oracle req s).state
  | .confirmOp env oracle req => (confirmPaymentKeyed cfg env oracle req s).state
  | .webhookOp => s

/-- Ledger state of the keyed variant after a sequence of requests. -/
def keyedRun (cfg : KeyedConfig) (ops : List KeyedOp) : LedgerState :=
  ops.foldl (keyedStep cfg) ⟨[], []⟩

/-- A payment record references an intent present in the given intents
ledger: it has a `payment_intent_id` and some stored intent carries that
id. -/
def referencesExistingIntent (intents : List PaymentIntent) (p : Payment) : Bool :=
  match p.payment_intent_id with
  | none => false
  | some pid => intents.any (fun i => i.id == pid)

/-- Every stored payment references an existing stored intent. -/
def paymentsReferenceIntents (s : LedgerState) : Bool :=
  s.payments.all (referencesExistingIntent s.paymentIntents)

/-- Every webhook-created payment record carries neither an `order_id` nor
a `payment_intent_id` key. -/
def webhookRecordsUnlinked (s : LedgerState) : Bool :=
  s.payments.all (fun p =>
    match p.origin with
    | .webhook => p.order_id == none && p.payment_intent_id == none
    | .confirm => true)

/-! ### Concrete fixtures used by witnesses and counterexamples -/

/-- A fixed runtime environment: clock at March 2025. -/
def env0 : Env :=
  ⟨2025, 3, "2025-03-15T00:00:00.000Z", "t0", "r1", "r2"⟩

/-- A complete customer block. -/
def cust0 : Customer := ⟨some "a@b.com", some "A", some "B"⟩

/-- A valid card (16 digits, exp 12/2030, 3-digit CVV). -/
def cardOk : CardInput := ⟨"4242424242424242", 12, 2030, "123"⟩

/-- A billing block. -/
def billing0 : Billing := ⟨"A", "B", "a@b.com"⟩

/-- A payment method with the valid card and no metadata. -/
def pm0 : PaymentMethodInput := ⟨cardOk, billing0, none⟩

/-- The empty ledger. -/
def s0 : LedgerState := ⟨[], []⟩

/-- A stored non-simulated intent of 100 USD with order id `o1`. -/
def intent100 : PaymentIntent :=
  ⟨"pi_1", some "sec", 100, "USD", "requires_payment_method", none, none,
    some "o1", cust0, "t", false⟩

/-- Ledger holding only `intent100`. -/
def sIntent : LedgerState := ⟨[intent100], []⟩

/-- A confirm request against `intent100` with the valid card. -/
def reqConfirm0 : ConfirmRequest := ⟨some "pi_1", some pm0⟩

/-- Intent-creation request with no `amount`. -/
def reqNoAmount : CreateIntentRequest :=
  ⟨none, some "USD", none, none, some "o1", some cust0⟩

/-- Intent-creation request with an amount but no `customer` object. -/
def reqNoCustomer : CreateIntentRequest :=
  ⟨some 5, some "USD", none, none, some "o1", none⟩

/-- A well-formed intent-creation request of 100 USD. -/
def reqCreate0 : CreateIntentRequest :=
  ⟨some 100, some "USD", some "starter", none, some "o1", some cust0⟩

/-! ### Claims -/

/-- C1, corrected.  For every create-payment-intent request in which
`amount` is falsy or `customer.email` is missing, no entry is created in
either ledger in any variant, and the response is HTTP 400 - except in the
keyed variant (`server.js` 382-494) when the `customer` object itself is
absent: its request log dereferences `customer.email` before validation,
so the handler answers 500 (still creating nothing). -/
theorem create_missing_fields_rejected :
    (∀ env oracle req s, missingRequiredFields req = true →
      (createPaymentIntentLive env oracle req s).httpStatus = 400 ∧
      (createPaymentIntentLive env oracle req s).state = s ∧
      (createPaymentIntentLive env oracle req s).calls = []) ∧
    (∀ cfg env oracle req s, missingRequiredFields req = true →
      (createPaymentIntentAuth cfg env oracle req s).httpStatus = 400 ∧
      (createPaymentIntentAuth cfg env oracle req s).state = s ∧
      (createPaymentIntentAuth cfg env oracle req s).calls = []) ∧
    (∀ cfg env oracle req s c, req.customer = some c →
      missingRequiredFields req = true →
      (createPaymentIntentKeyed cfg env oracle req s).httpStatus = 400 ∧
      (createPaymentIntentKeyed cfg env oracle req s).state = s ∧
      (createPaymentIntentKeyed cfg env oracle req s).calls = []) ∧
    (∀ cfg env oracle req s, req.customer = none →
      (createPaymentIntentKeyed cfg env oracle req s).httpStatus = 500 ∧
      (createPaymentIntentKeyed cfg env oracle req s).state = s ∧
      (createPaymentIntentKeyed cfg env oracle req s).calls = []) := by
  refine ⟨?_, ?_, ?_, ?_⟩
  · intro env oracle req s h
    simp [createPaymentIntentLive, h]
  · intro cfg env oracle req s h
    cases hc : req.customer with
    | none => simp [createPaymentIntentAuth, hc]
    | some c =>
      have hm : (!jsTruthyInt req.amount || !jsTruthyStr c.email) = true := by
        simpa [missingRequiredFields, hc] using h
      simp [createPaymentIntentAuth, hc, hm]
  · intro cfg env oracle req s c hc h
    have hm : (!jsTruthyInt req.amount || !jsTruthyStr c.email) = true := by
      simpa [missingRequiredFields, hc] using h
    simp [createPaymentIntentKeyed, hc, hm]
  · intro cfg env oracle req s hc
    simp [createPaymentIntentKeyed, hc]

/-- C1 witness: a request with no `amount` is answered 400 by the live
variant and leaves the ledger empty. -/
theorem create_missing_fields_rejected_witness :
    missingRequiredFields reqNoAmount = true ∧
    (createPaymentIntentLive env0 (.err "down") reqNoAmount s0).httpStatus = 400 ∧
    (createPaymentIntentLive env0 (.err "down") reqNoAmount s0).state = s0 :=
  ⟨by decide,
    (create_missing_fields_rejected.1 env0 (.err "down") reqNoAmount s0
      (by decide)).1,
    (create_missing_fields_rejected.1 env0 (.err "down") reqNoAmount s0
      (by decide)).2.1⟩

/-- C1 counterexample: in the keyed variant a request with an amount but
no `customer` object (hence no `customer.email`) is answered 500, not 400
(the ledger is still left unchanged). -/
theorem create_missing_fields_counterexample :
    (createPaymentIntentKeyed ⟨none⟩ env0 (.err "down") reqNoCustomer s0).httpStatus = 500 ∧
    (createPaymentIntentKeyed ⟨none⟩ env0 (.err "down") reqNoCustomer s0).httpStatus ≠ 400 ∧
    (createPaymentIntentKeyed ⟨none⟩ env0 (.err "down") reqNoCustomer s0).state = s0 := by
  refine ⟨by decide, by decide, by decide⟩

/-- C2.  `validateCardDetails` accepts exactly when the whitespace-stripped
card number has length 15-19, the expiry month is in 1..12, the expiry
(year, month) is not strictly before the current (year, month), and the
CVV has length 3 or 4; and whenever it rejects, the auth-variant confirm
handler answers 400 with that error, performs no network call and leaves
the ledger unchanged. -/
theorem validateCardDetails_correct :
    (∀ y m card, validateCardDetails y m card = none ↔
      (15 ≤ (stripWhitespace card.number).length ∧
       (stripWhitespace card.number).length ≤ 19 ∧
       1 ≤ card.exp_month ∧ card.exp_month ≤ 12 ∧
       (y < card.exp_year ∨ (card.exp_year = y ∧ m ≤ card.exp_month)) ∧
       (card.cvc.length = 3 ∨ card.cvc.length = 4))) ∧
    (∀ cfg env oracle req s pm e intent, req.paymentMethod = some pm →
      jsTruthyStr req.paymentIntentId = true →
      s.paymentIntents.find? (fun pi => some pi.id == req.paymentIntentId) =
        some intent →
      validateCardDetails env.year env.month pm.card = some e →
      (confirmPaymentAuth cfg env oracle req s).httpStatus = 400 ∧
      (confirmPaymentAuth cfg env oracle req s).body = .cardError e ∧
      (confirmPaymentAuth cfg env oracle req s).state = s ∧
      (confirmPaymentAuth cfg env oracle req s).calls = []) := by
  constructor
  · exact validateCardDetails_none_iff
  · intro cfg env oracle req s pm e intent hpm hpid hfind hval
    simp [confirmPaymentAuth, hpm, hpid, hfind, hval]

/-- C2 witness: the boundary card (15 digits, exp 03/2025, CVV length 3)
is accepted at clock March 2025, and a 2-digit CVV makes the auth confirm
handler answer 400 with no network call. -/
theorem validateCardDetails_correct_witness :
    validateCardDetails 2025 3 ⟨"424242424242424", 3, 2025, "123"⟩ = none ∧
    (confirmPaymentAuth ⟨some "k", some "c"⟩ env0 ⟨.ok "tok", .err "x"⟩
      ⟨some "pi_1", some ⟨⟨"4242424242424242", 12, 2030, "12"⟩, billing0, none⟩⟩
      sIntent).calls = [] ∧
    (confirmPaymentAuth ⟨some "k", some "c"⟩ env0 ⟨.ok "tok", .err "x"⟩
      ⟨some "pi_1", some ⟨⟨"4242424242424242", 12, 2030, "12"⟩, billing0, none⟩⟩
      sIntent).httpStatus = 400 :=
  ⟨(validateCardDetails_correct.1 2025 3 ⟨"424242424242424", 3, 2025, "123"⟩).mpr
      (by decide),
    (validateCardDetails_correct.2 ⟨some "k", some "c"⟩ env0 ⟨.ok "tok", .err "x"⟩
      ⟨some "pi_1", some ⟨⟨"4242424242424242", 12, 2030, "12"⟩, billing0, none⟩⟩
      sIntent ⟨⟨"4242424242424242", 12, 2030, "12"⟩, billing0, none⟩
      .invalidCVV intent100 rfl (by decide) (by decide) (by decide)).2.2.2,
    (validateCardDetails_correct.2 ⟨some "k", some "c"⟩ env0 ⟨.ok "tok", .err "x"⟩
      ⟨some "pi_1", some ⟨⟨"4242424242424242", 12, 2030, "12"⟩, billing0, none⟩⟩
      sIntent ⟨⟨"4242424242424242", 12, 2030, "12"⟩, billing0, none⟩
      .invalidCVV intent100 rfl (by decide) (by decide) (by decide)).1⟩

/-- C3.  A confirm request whose `paymentIntentId` matches no stored
intent is answered 404 by the lookup-equipped confirm handlers (auth
variant / HPP fallback, and keyed variant), with no payment record
created and no network call. -/
theorem confirm_unknown_intent_404 :
    (∀ cfg env oracle req s pm,
      req.paymentMethod = some pm →
      jsTruthyStr req.paymentIntentId = true →
      (∀ i ∈ s.paymentIntents, some i.id ≠ req.paymentIntentId) →
      (confirmPaymentAuth cfg env oracle req s).httpStatus = 404 ∧
      (confirmPaymentAuth cfg env oracle req s).body = .notFound ∧
      (confirmPaymentAuth cfg env oracle req s).state = s ∧
      (confirmPaymentAuth cfg env oracle req s).calls = []) ∧
    (∀ cfg env oracle req s pm,
      req.paymentMethod = some pm →
      (∀ i ∈ s.paymentIntents, some i.id ≠ req.paymentIntentId) →
      (confirmPaymentKeyed cfg env oracle req s).httpStatus = 404 ∧
      (confirmPaymentKeyed cfg env oracle req s).body = .notFound ∧
      (confirmPaymentKeyed cfg env oracle req s).state = s ∧
      (confirmPaymentKeyed cfg env oracle req s).calls = []) := by
  constructor
  · intro cfg env oracle req s pm hpm hpid h
    have hfind : s.paymentIntents.find?
        (fun pi => some pi.id == req.paymentIntentId) = none :=
      List.find?_eq_none.mpr (fun x hx => by simpa using h x hx)
    simp [confirmPaymentAuth, hpm, hpid, hfind]
  · intro cfg env oracle req s pm hpm h
    have hfind : s.paymentIntents.find?
        (fun pi => some pi.id == req.paymentIntentId) = none :=
      List.find?_eq_none.mpr (fun x hx => by simpa using h x hx)
    simp [confirmPaymentKeyed, hpm, hfind]

/-- C3 witness: confirming the unknown id `nope` against the ledger that
stores only `pi_1` yields 404 and leaves the ledger unchanged in both
handlers. -/
theorem confirm_unknown_intent_404_witness :
    (confirmPaymentAuth ⟨some "k", some "c"⟩ env0 ⟨.ok "tok", .err "x"⟩
      ⟨some "nope", some pm0⟩ sIntent).httpStatus = 404 ∧
    (confirmPaymentAuth ⟨some "k", some "c"⟩ env0 ⟨.ok "tok", .err "x"⟩
      ⟨some "nope", some pm0⟩ sIntent).state = sIntent ∧
    (confirmPaymentKeyed ⟨some "k"⟩ env0 (.err "x")
      ⟨some "nope", some pm0⟩ sIntent).httpStatus = 404 ∧
    (confirmPaymentKeyed ⟨some "k"⟩ env0 (.err "x")
      ⟨some "nope", some pm0⟩ sIntent).state = sIntent :=
  ⟨(confirm_unknown_intent_404.1 ⟨some "k", some "c"⟩ env0 ⟨.ok "tok", .err "x"⟩
      ⟨some "nope", some pm0⟩ sIntent pm0 rfl (by decide) (by decide)).1,
    (confirm_unknown_intent_404.1 ⟨some "k", some "c"⟩ env0 ⟨.ok "tok", .err "x"⟩
      ⟨some "nope", some pm0⟩ sIntent pm0 rfl (by decide) (by decide)).2.2.1,
    (confirm_unknown_intent_404.2 ⟨some "k"⟩ env0 (.err "x")
      ⟨some "nope", some pm0⟩ sIntent pm0 rfl (by decide)).1,
    (confirm_unknown_intent_404.2 ⟨some "k"⟩ env0 (.err "x")
      ⟨some "nope", some pm0⟩ sIntent pm0 rfl (by decide)).2.2.1⟩

/-- C4.  With processor credentials absent, every valid intent-creation
request is answered by the local simulation: no network call, HTTP 200,
and the returned record - also pushed onto the intents ledger - has status
`requires_payment_method` and `simulation: true`.  Proved for the auth
variant (either credential missing) and the keyed variant (API key
missing). -/
theorem simulation_create_local :
    (∀ cfg env oracle req s c,
      req.customer = some c →
      jsTruthyStr c.email = true →
      jsTruthyInt req.amount = true →
      (jsTruthyStr cfg.apiKey = false ∨ jsTruthyStr cfg.clientId = false) →
      createPaymentIntentAuth cfg env oracle req s =
        createSimulatedPaymentIntent env req s ∧
      (createSimulatedPaymentIntent env req s).calls = [] ∧
      (createSimulatedPaymentIntent env req s).httpStatus = 200 ∧
      ∃ pi, (createSimulatedPaymentIntent env req s).body = .intent pi ∧
        pi.status = "requires_payment_method" ∧ pi.simulation = true ∧
        (createSimulatedPaymentIntent env req s).state =
          ⟨s.paymentIntents ++ [pi], s.payments⟩) ∧
    (∀ cfg env oracle req s c,
      req.customer = some c →
      jsTruthyStr c.email = true →
      jsTruthyInt req.amount = true →
      jsTruthyStr cfg.apiKey = false →
      createPaymentIntentKeyed cfg env oracle req s =
        createSimulatedPaymentIntent env req s) := by
  constructor
  · intro cfg env oracle req s c hc hmail hamt hcred
    have hv : (!jsTruthyInt req.amount || !jsTruthyStr c.email) = false := by
      simp [hmail, hamt]
    have hk : (!jsTruthyStr cfg.apiKey || !jsTruthyStr cfg.clientId) = true := by
      rcases hcred with h | h <;> simp [h]
    refine ⟨by simp [createPaymentIntentAuth, hc, hv, hk], rfl, rfl, ?_⟩
    exact ⟨_, rfl, rfl, rfl, rfl⟩
  · intro cfg env oracle req s c hc hmail hamt hkey
    have hv : (!jsTruthyInt req.amount || !jsTruthyStr c.email) = false := by
      simp [hmail, hamt]
    simp [createPaymentIntentKeyed, hc, hv, hkey]

/-- C4 witness: with the API key missing, creating a 100 USD intent in the
auth variant runs the simulation and pushes a `requires_payment_method`,
`simulation: true` record. -/
theorem simulation_create_local_witness :
    createPaymentIntentAuth ⟨none, some "c"⟩ env0 ⟨.err "t", .err "c"⟩
      reqCreate0 s0 = createSimulatedPaymentIntent env0 reqCreate0 s0 ∧
    (createSimulatedPaymentIntent env0 reqCreate0 s0).httpStatus = 200 ∧
    (createSimulatedPaymentIntent env0 reqCreate0 s0).calls = [] :=
  ⟨(simulation_create_local.1 ⟨none, some "c"⟩ env0 ⟨.err "t", .err "c"⟩
      reqCreate0 s0 cust0 rfl (by decide) (by decide) (Or.inl (by decide))).1,
    (simulation_create_local.1 ⟨none, some "c"⟩ env0 ⟨.err "t", .err "c"⟩
      reqCreate0 s0 cust0 rfl (by decide) (by decide) (Or.inl (by decide))).2.2.1,
    (simulation_create_local.1 ⟨none, some "c"⟩ env0 ⟨.err "t", .err "c"⟩
      reqCreate0 s0 cust0 rfl (by decide) (by decide) (Or.inl (by decide))).2.1⟩

/-- Auth configuration with both credentials present. -/
def cfgReal : AuthConfig := ⟨some "k", some "c"⟩

/-- Ledger after an auth-variant create with credentials configured whose
upstream call failed: the fallback stored a SIMULATED intent even though
credentials are present. -/
def s1sim : LedgerState :=
  (createPaymentIntentAuth cfgReal env0 ⟨.ok "tok", .err "down"⟩
    reqCreate0 s0).state

/-- A processor confirm response with a non-success status. -/
def awxPending : AwxConfirmResponse :=
  ⟨some "cf1", some "PENDING", none, 100, "USD", none, none⟩

/-- A successful processor confirm response carrying amount 777 EUR. -/
def awx777 : AwxConfirmResponse :=
  ⟨some "cf1", some "SUCCEEDED", none, 777, "EUR", none, none⟩

/-- A processor confirm response with status `REQUIRES_CAPTURE`. -/
def awxRC : AwxConfirmResponse :=
  ⟨some "cf2", some "REQUIRES_CAPTURE", none, 100, "USD", some "dc1", none⟩

/-- Amount and currency of a success body, when it is one. -/
def bodyAmountCurrency : ConfirmBody → Option (Int × String)
  | .success q => some (q.amount, q.currency)
  | _ => none

/-- C5, corrected.  A confirm against a simulated intent resolves locally
with status `succeeded` and no network call in the keyed variant, which
branches on the stored intent `simulation` flag; in the auth variants the
branch is on CREDENTIAL absence instead, so the local resolution holds
exactly when credentials are absent (with credentials configured, a
simulated intent is forwarded to the processor - see the
counterexample). -/
theorem simulated_confirm_local_amended :
    (∀ cfg env oracle req s pm intent,
      req.paymentMethod = some pm →
      s.paymentIntents.find? (fun pi => some pi.id == req.paymentIntentId) =
        some intent →
      intent.simulation = true →
      validateCardDetails env.year env.month pm.card = none →
      (confirmPaymentKeyed cfg env oracle req s).calls = [] ∧
      (confirmPaymentKeyed cfg env oracle req s).httpStatus = 200 ∧
      (confirmPaymentKeyed cfg env oracle req s).body =
        .success (processSimulatedPayment env intent pm) ∧
      (processSimulatedPayment env intent pm).status = "succeeded" ∧
      (confirmPaymentKeyed cfg env oracle req s).state.payments.length =
        s.payments.length + 1) ∧
    (∀ cfg env oracle req s pm intent,
      req.paymentMethod = some pm →
      jsTruthyStr req.paymentIntentId = true →
      s.paymentIntents.find? (fun pi => some pi.id == req.paymentIntentId) =
        some intent →
      validateCardDetails env.year env.month pm.card = none →
      (jsTruthyStr cfg.apiKey = false ∨ jsTruthyStr cfg.clientId = false) →
      confirmPaymentAuth cfg env oracle req s =
        processSimulatedPaymentAuth env intent pm s ∧
      (processSimulatedPaymentAuth env intent pm s).calls = [] ∧
      (processSimulatedPaymentAuth env intent pm s).httpStatus = 200 ∧
      (processSimulatedPaymentAuth env intent pm s).body =
        .success (processSimulatedPayment env intent pm)) := by
  constructor
  · intro cfg env oracle req s pm intent hpm hfind hsim hval
    refine ⟨?_, ?_, ?_, rfl, ?_⟩ <;>
      simp [confirmPaymentKeyed, hpm, hfind, hsim, hval]
  · intro cfg env oracle req s pm intent hpm hpid hfind hval hcred
    have hk : (!jsTruthyStr cfg.apiKey || !jsTruthyStr cfg.clientId) = true := by
      rcases hcred with h | h <;> simp [h]
    exact ⟨by simp [confirmPaymentAuth, hpm, hpid, hfind, hval, hk], rfl, rfl, rfl⟩

/-- C5 witness: with credentials absent, confirming a (non-simulated or
simulated) intent in the auth variant resolves locally with the simulated
`succeeded` payload and no network call; the keyed variant resolves a
simulated intent locally. -/
theorem simulated_confirm_local_amended_witness :
    (confirmPaymentKeyed ⟨some "k"⟩ env0 (.err "x")
      ⟨some "pi_sim_r1", some pm0⟩
      ⟨[⟨"pi_sim_r1", none, 100, "USD", "requires_payment_method", none, none,
          some "o1", cust0, "t", true⟩], []⟩).calls = [] ∧
    (confirmPaymentKeyed ⟨some "k"⟩ env0 (.err "x")
      ⟨some "pi_sim_r1", some pm0⟩
      ⟨[⟨"pi_sim_r1", none, 100, "USD", "requires_payment_method", none, none,
          some "o1", cust0, "t", true⟩], []⟩).httpStatus = 200 :=
  ⟨(simulated_confirm_local_amended.1 ⟨some "k"⟩ env0 (.err "x")
      ⟨some "pi_sim_r1", some pm0⟩
      ⟨[⟨"pi_sim_r1", none, 100, "USD", "requires_payment_method", none, none,
          some "o1", cust0, "t", true⟩], []⟩ pm0
      ⟨"pi_sim_r1", none, 100, "USD", "requires_payment_method", none, none,
          some "o1", cust0, "t", true⟩
      rfl (by decide) (by decide) (by decide)).1,
    (simulated_confirm_local_amended.1 ⟨some "k"⟩ env0 (.err "x")
      ⟨some "pi_sim_r1", some pm0⟩
      ⟨[⟨"pi_sim_r1", none, 100, "USD", "requires_payment_method", none, none,
          some "o1", cust0, "t", true⟩], []⟩ pm0
      ⟨"pi_sim_r1", none, 100, "USD", "requires_payment_method", none, none,
          some "o1", cust0, "t", true⟩
      rfl (by decide) (by decide) (by decide)).2.1⟩

/-- C5 counterexample: in the auth variant with credentials configured, a
reachable ledger contains a simulated intent (stored by the upstream-error
fallback during create); confirming it with a valid card performs the
login and confirm network calls and, with the processor answering status
`PENDING`, ends 400 - neither local nor `succeeded`. -/
theorem simulated_confirm_local_counterexample :
    (s1sim.paymentIntents.map (fun i => (i.id, i.simulation))) =
      [("pi_sim_r1", true)] ∧
    validateCardDetails env0.year env0.month pm0.card = none ∧
    (confirmPaymentAuth cfgReal env0 ⟨.ok "tok", .ok awxPending⟩
      ⟨some "pi_sim_r1", some pm0⟩ s1sim).calls =
        [NetCall.login, NetCall.confirmIntent] ∧
    (confirmPaymentAuth cfgReal env0 ⟨.ok "tok", .ok awxPending⟩
      ⟨some "pi_sim_r1", some pm0⟩ s1sim).httpStatus = 400 := by
  refine ⟨by decide, by decide, by decide, by decide⟩

/-- C6, corrected.  In the auth variants (`part_004`, HPP fallback) a
successful confirmation stores and returns the amount/currency of the
STORED INTENT; in the keyed variant (`server.js` 497-623) and `part_000`
the payment record and success payload instead carry the processor confirm
response amount/currency (see the counterexample). -/
theorem confirm_uses_intent_amount_amended :
    (∀ cfg env oracle req s pm intent r t,
      req.paymentMethod = some pm →
      jsTruthyStr req.paymentIntentId = true →
      s.paymentIntents.find? (fun pi => some pi.id == req.paymentIntentId) =
        some intent →
      validateCardDetails env.year env.month pm.card = none →
      jsTruthyStr cfg.apiKey = true →
      jsTruthyStr cfg.clientId = true →
      oracle.token = .ok t →
      oracle.confirm = .ok r →
      confirmSuccessStatusAuth r = true →
      ((confirmPaymentAuth cfg env oracle req s).state.payments.map
          (fun p => (p.amount, p.currency))) =
        (s.payments.map (fun p => (p.amount, p.currency))) ++
          [(intent.amount, intent.currency)] ∧
      bodyAmountCurrency (confirmPaymentAuth cfg env oracle req s).body =
        some (intent.amount, intent.currency)) ∧
    (∀ env intent pm s,
      ((processSimulatedPaymentAuth env intent pm s).state.payments.map
          (fun p => (p.amount, p.currency))) =
        (s.payments.map (fun p => (p.amount, p.currency))) ++
          [(intent.amount, intent.currency)] ∧
      bodyAmountCurrency (processSimulatedPaymentAuth env intent pm s).body =
        some (intent.amount, intent.currency)) := by
  constructor
  · intro cfg env oracle req s pm intent r t hpm hpid hfind hval hk1 hk2 ht hr hst
    have hk : (!jsTruthyStr cfg.apiKey || !jsTruthyStr cfg.clientId) = false := by
      simp [hk1, hk2]
    constructor <;>
      simp [confirmPaymentAuth, bodyAmountCurrency, hpm, hpid, hfind, hval,
        hk, ht, hr, hst]
  · intro env intent pm s
    constructor <;>
      simp [processSimulatedPaymentAuth, processSimulatedPayment,
        bodyAmountCurrency]

/-- C6 witness: an auth-variant confirmation whose processor response says
777 EUR still records and returns the stored intent 100 USD. -/
theorem confirm_uses_intent_amount_amended_witness :
    ((confirmPaymentAuth cfgReal env0 ⟨.ok "tok", .ok awx777⟩ reqConfirm0
        sIntent).state.payments.map (fun p => (p.amount, p.currency))) =
      (sIntent.payments.map (fun p => (p.amount, p.currency))) ++
        [(intent100.amount, intent100.currency)] ∧
    bodyAmountCurrency
      (confirmPaymentAuth cfgReal env0 ⟨.ok "tok", .ok awx777⟩ reqConfirm0
        sIntent).body = some (intent100.amount, intent100.currency) :=
  confirm_uses_intent_amount_amended.1 cfgReal env0 ⟨.ok "tok", .ok awx777⟩
    reqConfirm0 sIntent pm0 intent100 awx777 "tok" rfl (by decide) (by decide)
    (by decide) (by decide) (by decide) rfl rfl (by decide)

/-- C6 counterexample: in the keyed variant the same situation stores and
returns the processor response values 777 EUR, not the intent 100 USD. -/
theorem confirm_uses_intent_amount_counterexample :
    intent100.amount = 100 ∧ intent100.currency = "USD" ∧
    ((confirmPaymentKeyed ⟨some "k"⟩ env0 (.ok awx777) reqConfirm0
        sIntent).state.payments.map (fun p => (p.amount, p.currency))) =
      [(777, "EUR")] ∧
    bodyAmountCurrency
      (confirmPaymentKeyed ⟨some "k"⟩ env0 (.ok awx777) reqConfirm0
        sIntent).body = some (777, "EUR") := by
  refine ⟨by decide, by decide, by decide, by decide⟩

/-- C7, corrected.  The auth variants classify a confirm response as a
success exactly when the uppercased `status || payment_status` is one of
`SUCCEEDED`/`SUCCESS`/`CAPTURED`, but their 400 failure body carries NO
decline-code key; the keyed variant and `part_000` instead compare the raw
status against `SUCCEEDED`/`REQUIRES_CAPTURE` (their failure body does
carry `decline_code`).  In all variants no payment record is appended on
the failure path.  The three conjuncts settle the auth handler, the
`part_000` handler and the keyed handler respectively. -/
theorem confirm_status_classification_amended :
    (∀ cfg env oracle req s pm intent r t,
      req.paymentMethod = some pm →
      jsTruthyStr req.paymentIntentId = true →
      s.paymentIntents.find? (fun pi => some pi.id == req.paymentIntentId) =
        some intent →
      validateCardDetails env.year env.month pm.card = none →
      jsTruthyStr cfg.apiKey = true →
      jsTruthyStr cfg.clientId = true →
      oracle.token = .ok t →
      oracle.confirm = .ok r →
      ((confirmSuccessStatusAuth r = true →
        (confirmPaymentAuth cfg env oracle req s).httpStatus = 200 ∧
        (confirmPaymentAuth cfg env oracle req s).state.payments.length =
          s.payments.length + 1) ∧
       (confirmSuccessStatusAuth r = false →
        confirmPaymentAuth cfg env oracle req s =
          ⟨400, .declinedNoCode r.status, s, [.login, .confirmIntent]⟩))) ∧
    (∀ env oracle req s pm r,
      req.paymentMethod = some pm →
      validateCardDetails env.year env.month pm.card = none →
      oracle = .ok r →
      ((confirmSuccessStatusRaw r = true →
        (confirmPaymentLive env oracle req s).httpStatus = 200 ∧
        (confirmPaymentLive env oracle req s).state.payments.length =
          s.payments.length + 1) ∧
       (confirmSuccessStatusRaw r = false →
        confirmPaymentLive env oracle req s =
          ⟨400, .declinedWithCode r.status r.last_payment_error_code, s,
            [.confirmIntent]⟩))) ∧
    (∀ cfg env oracle req s pm intent r,
      req.paymentMethod = some pm →
      s.paymentIntents.find? (fun pi => some pi.id == req.paymentIntentId) =
        some intent →
      intent.simulation = false →
      validateCardDetails env.year env.month pm.card = none →
      jsTruthyStr cfg.apiKey = true →
      oracle = .ok r →
      ((confirmSuccessStatusRaw r = true →
        (confirmPaymentKeyed cfg env oracle req s).httpStatus = 200 ∧
        (confirmPaymentKeyed cfg env oracle req s).state.payments.length =
          s.payments.length + 1) ∧
       (confirmSuccessStatusRaw r = false →
        confirmPaymentKeyed cfg env oracle req s =
          ⟨400, .declinedWithCode r.status r.last_payment_error_code, s,
            [.confirmIntent]⟩))) := by
  refine ⟨?_, ?_, ?_⟩
  · intro cfg env oracle req s pm intent r t hpm hpid hfind hval hk1 hk2 ht hr
    have hk : (!jsTruthyStr cfg.apiKey || !jsTruthyStr cfg.clientId) = false := by
      simp [hk1, hk2]
    constructor
    · intro hst
      constructor <;>
        simp [confirmPaymentAuth, hpm, hpid, hfind, hval, hk, ht, hr, hst]
    · intro hst
      simp [confirmPaymentAuth, hpm, hpid, hfind, hval, hk, ht, hr, hst]
  · intro env oracle req s pm r hpm hval hr
    constructor
    · intro hst
      constructor <;> simp [confirmPaymentLive, hpm, hval, hr, hst]
    · intro hst
      simp [confirmPaymentLive, hpm, hval, hr, hst]
  · intro cfg env oracle req s pm intent r hpm hfind hsim hval hkey hr
    constructor
    · intro hst
      constructor <;>
        simp [confirmPaymentKeyed, hpm, hfind, hsim, hval, hkey, hr, hst]
    · intro hst
      simp [confirmPaymentKeyed, hpm, hfind, hsim, hval, hkey, hr, hst]

/-- C7 witness: a `PENDING` response makes the auth variant answer the 400
body without a decline-code key and leave the ledger unchanged, and makes
the keyed variant answer the 400 body that does carry the decline-code
key, also leaving the ledger unchanged. -/
theorem confirm_status_classification_amended_witness :
    confirmPaymentAuth cfgReal env0 ⟨.ok "tok", .ok awxPending⟩ reqConfirm0
      sIntent =
      ⟨400, .declinedNoCode (some "PENDING"), sIntent,
        [.login, .confirmIntent]⟩ ∧
    confirmPaymentKeyed ⟨some "k"⟩ env0 (.ok awxPending) reqConfirm0 sIntent =
      ⟨400, .declinedWithCode awxPending.status
          awxPending.last_payment_error_code, sIntent, [.confirmIntent]⟩ :=
  ⟨(confirm_status_classification_amended.1 cfgReal env0
      ⟨.ok "tok", .ok awxPending⟩ reqConfirm0 sIntent pm0 intent100 awxPending
      "tok" rfl (by decide) (by decide) (by decide) (by decide) (by decide)
      rfl rfl).2 (by decide),
    (confirm_status_classification_amended.2.2 ⟨some "k"⟩ env0
      (.ok awxPending) reqConfirm0 sIntent pm0 intent100 awxPending
      rfl (by decide) (by decide) (by decide) (by decide) rfl).2
      (by decide)⟩

/-- C7 counterexample: the `part_000` confirm handler (cited at line 119)
classifies a response whose status is `REQUIRES_CAPTURE` as a SUCCESS and
appends a payment record, although the uppercased status is not in the
set SUCCEEDED/SUCCESS/CAPTURED claimed to decide success. -/
theorem confirm_status_classification_counterexample :
    jsToUpper (firstTruthyStr awxRC.status awxRC.payment_status) =
      "REQUIRES_CAPTURE" ∧
    confirmSuccessStatusAuth awxRC = false ∧
    (confirmPaymentLive env0 (.ok awxRC) reqConfirm0 s0).httpStatus = 200 ∧
    (confirmPaymentLive env0 (.ok awxRC) reqConfirm0 s0).state.payments.length
      = 1 := by
  refine ⟨by decide, by decide, by decide, by decide⟩

/-- C8.  Two confirm runs that differ only in the card block (both passing
validation) produce success payloads agreeing on every field except
`card_last4`, which is the `slice(-4)` of the respective card number;
since a validated number has at least 15 characters, this 4-character
suffix is never the full card number.  So the full number received as
input never appears in a success response, whose only card-derived field
is the last four digits.  The first conjunct settles the auth-variant
confirm handler (all its success paths, simulated and real); the second
settles the keyed confirm handler (its simulated-intent and real success
paths). -/
theorem success_response_masks_card :
    (∀ cfg env oracle s pid billing md c1 c2 q1,
      validateCardDetails env.year env.month c1 = none →
      validateCardDetails env.year env.month c2 = none →
      (confirmPaymentAuth cfg env oracle ⟨pid, some ⟨c1, billing, md⟩⟩ s).body =
        .success q1 →
      ∃ q2,
        (confirmPaymentAuth cfg env oracle ⟨pid, some ⟨c2, billing, md⟩⟩ s).body =
          .success q2 ∧
        q1.id = q2.id ∧ q1.status = q2.status ∧ q1.amount = q2.amount ∧
        q1.currency = q2.currency ∧ q1.payment_method = q2.payment_method ∧
        q1.timestamp = q2.timestamp ∧ q1.simulation = q2.simulation ∧
        q1.card_last4 = sliceLast4 c1.number ∧
        q2.card_last4 = sliceLast4 c2.number ∧
        q1.card_last4 ≠ c1.number ∧ q2.card_last4 ≠ c2.number) ∧
    (∀ cfg env oracle s pid billing md c1 c2 q1,
      validateCardDetails env.year env.month c1 = none →
      validateCardDetails env.year env.month c2 = none →
      (confirmPaymentKeyed cfg env oracle ⟨pid, some ⟨c1, billing, md⟩⟩ s).body =
        .success q1 →
      ∃ q2,
        (confirmPaymentKeyed cfg env oracle ⟨pid, some ⟨c2, billing, md⟩⟩ s).body =
          .success q2 ∧
        q1.id = q2.id ∧ q1.status = q2.status ∧ q1.amount = q2.amount ∧
        q1.currency = q2.currency ∧ q1.payment_method = q2.payment_method ∧
        q1.timestamp = q2.timestamp ∧ q1.simulation = q2.simulation ∧
        q1.card_last4 = sliceLast4 c1.number ∧
        q2.card_last4 = sliceLast4 c2.number ∧
        q1.card_last4 ≠ c1.number ∧ q2.card_last4 ≠ c2.number) := by
  constructor
  · intro cfg env oracle s pid billing md c1 c2 q1 h1 h2 hq
    have hne1 := sliceLast4_ne_of_valid env.year env.month c1 h1
    have hne2 := sliceLast4_ne_of_valid env.year env.month c2 h2
    cases hpid : jsTruthyStr pid with
    | false => simp [confirmPaymentAuth, hpid] at hq
    | true =>
    cases hfind : s.paymentIntents.find? (fun pi => some pi.id == pid) with
    | none => simp [confirmPaymentAuth, hpid, hfind] at hq
    | some intent =>
    cases hk : (!jsTruthyStr cfg.apiKey || !jsTruthyStr cfg.clientId) with
    | true =>
      simp [confirmPaymentAuth, hpid, hfind, h1, hk,
        processSimulatedPaymentAuth] at hq
      refine ⟨processSimulatedPayment env intent ⟨c2, billing, md⟩,
        by simp [confirmPaymentAuth, hpid, hfind, h2, hk,
          processSimulatedPaymentAuth], ?_⟩
      subst hq
      exact ⟨rfl, rfl, rfl, rfl, rfl, rfl, rfl, rfl, rfl, hne1, hne2⟩
    | false =>
    cases htok : oracle.token with
    | err msg => simp [confirmPaymentAuth, hpid, hfind, h1, hk, htok] at hq
    | ok t =>
    cases hcf : oracle.confirm with
    | err msg => simp [confirmPaymentAuth, hpid, hfind, h1, hk, htok, hcf] at hq
    | ok r =>
    cases hst : confirmSuccessStatusAuth r with
    | false =>
      simp [confirmPaymentAuth, hpid, hfind, h1, hk, htok, hcf, hst] at hq
    | true =>
      simp [confirmPaymentAuth, hpid, hfind, h1, hk, htok, hcf, hst] at hq
      refine ⟨{ id := some (if jsTruthyStr r.id then r.id.getD ""
                            else "pay_" ++ env.nowTag)
                status := "succeeded"
                amount := intent.amount
                currency := intent.currency
                payment_method := "card"
                card_last4 := sliceLast4 c2.number
                timestamp := env.nowISO
                simulation := none },
        by simp [confirmPaymentAuth, hpid, hfind, h2, hk, htok, hcf, hst], ?_⟩
      subst hq
      exact ⟨rfl, rfl, rfl, rfl, rfl, rfl, rfl, rfl, rfl, hne1, hne2⟩
  · intro cfg env oracle s pid billing md c1 c2 q1 h1 h2 hq
    have hne1 := sliceLast4_ne_of_valid env.year env.month c1 h1
    have hne2 := sliceLast4_ne_of_valid env.year env.month c2 h2
    cases hfind : s.paymentIntents.find? (fun pi => some pi.id == pid) with
    | none => simp [confirmPaymentKeyed, hfind] at hq
    | some intent =>
    cases hsim : intent.simulation with
    | true =>
      simp [confirmPaymentKeyed, hfind, h1, hsim] at hq
      refine ⟨processSimulatedPayment env intent ⟨c2, billing, md⟩,
        by simp [confirmPaymentKeyed, hfind, h2, hsim], ?_⟩
      subst hq
      exact ⟨rfl, rfl, rfl, rfl, rfl, rfl, rfl, rfl, rfl, hne1, hne2⟩
    | false =>
    cases hkey : jsTruthyStr cfg.apiKey with
    | false => simp [confirmPaymentKeyed, hfind, h1, hsim, hkey] at hq
    | true =>
    cases oracle with
    | err msg => simp [confirmPaymentKeyed, hfind, h1, hsim, hkey] at hq
    | ok r =>
    cases hst : confirmSuccessStatusRaw r with
    | false =>
      simp [confirmPaymentKeyed, hfind, h1, hsim, hkey, hst] at hq
    | true =>
      simp [confirmPaymentKeyed, hfind, h1, hsim, hkey, hst] at hq
      refine ⟨{ id := r.id
                status := "succeeded"
                amount := r.amount
                currency := r.currency
                payment_method := "card"
                card_last4 := sliceLast4 c2.number
                timestamp := env.nowISO
                simulation := none },
        by simp [confirmPaymentKeyed, hfind, h2, hsim, hkey, hst], ?_⟩
      subst hq
      exact ⟨rfl, rfl, rfl, rfl, rfl, rfl, rfl, rfl, rfl, hne1, hne2⟩

/-- A second valid card (a Mastercard number with different expiry and a
4-digit CVV), used to vary the card block between two runs. -/
def card2 : CardInput := ⟨"5555555555554444", 11, 2031, "9999"⟩

/-- C8 witness: concrete pairs of confirms differing only in the card (a
Visa and a Mastercard number with different expiries and CVV lengths) get
success payloads equal except for the masked last-4 field, and neither
response contains a full card number - exercised on the auth handler
(simulated path) and on the keyed handler (real path). -/
theorem success_response_masks_card_witness :
    (∃ q2,
      (confirmPaymentAuth ⟨none, none⟩ env0 ⟨.err "t", .err "c"⟩
        ⟨some "pi_1", some ⟨card2, billing0, none⟩⟩
        sIntent).body = .success q2 ∧
      (processSimulatedPayment env0 intent100 pm0).id = q2.id ∧
      (processSimulatedPayment env0 intent100 pm0).status = q2.status ∧
      (processSimulatedPayment env0 intent100 pm0).amount = q2.amount ∧
      (processSimulatedPayment env0 intent100 pm0).currency = q2.currency ∧
      (processSimulatedPayment env0 intent100 pm0).payment_method =
        q2.payment_method ∧
      (processSimulatedPayment env0 intent100 pm0).timestamp = q2.timestamp ∧
      (processSimulatedPayment env0 intent100 pm0).simulation = q2.simulation ∧
      (processSimulatedPayment env0 intent100 pm0).card_last4 =
        sliceLast4 cardOk.number ∧
      q2.card_last4 = sliceLast4 card2.number ∧
      (processSimulatedPayment env0 intent100 pm0).card_last4 ≠
        cardOk.number ∧
      q2.card_last4 ≠ card2.number) ∧
    (∃ q2,
      (confirmPaymentKeyed ⟨some "k"⟩ env0 (.ok awx777)
        ⟨some "pi_1", some ⟨card2, billing0, none⟩⟩
        sIntent).body = .success q2 ∧
      (⟨some "cf1", "succeeded", 777, "EUR", "card", sliceLast4 cardOk.number,
        env0.nowISO, none⟩ : SuccessPayload).id = q2.id ∧
      (⟨some "cf1", "succeeded", 777, "EUR", "card", sliceLast4 cardOk.number,
        env0.nowISO, none⟩ : SuccessPayload).status = q2.status ∧
      (⟨some "cf1", "succeeded", 777, "EUR", "card", sliceLast4 cardOk.number,
        env0.nowISO, none⟩ : SuccessPayload).amount = q2.amount ∧
      (⟨some "cf1", "succeeded", 777, "EUR", "card", sliceLast4 cardOk.number,
        env0.nowISO, none⟩ : SuccessPayload).currency = q2.currency ∧
      (⟨some "cf1", "succeeded", 777, "EUR", "card", sliceLast4 cardOk.number,
        env0.nowISO, none⟩ : SuccessPayload).payment_method =
        q2.payment_method ∧
      (⟨some "cf1", "succeeded", 777, "EUR", "card", sliceLast4 cardOk.number,
        env0.nowISO, none⟩ : SuccessPayload).timestamp = q2.timestamp ∧
      (⟨some "cf1", "succeeded", 777, "EUR", "card", sliceLast4 cardOk.number,
        env0.nowISO, none⟩ : SuccessPayload).simulation = q2.simulation ∧
      (⟨some "cf1", "succeeded", 777, "EUR", "card", sliceLast4 cardOk.number,
        env0.nowISO, none⟩ : SuccessPayload).card_last4 =
        sliceLast4 cardOk.number ∧
      q2.card_last4 = sliceLast4 card2.number ∧
      (⟨some "cf1", "succeeded", 777, "EUR", "card", sliceLast4 cardOk.number,
        env0.nowISO, none⟩ : SuccessPayload).card_last4 ≠ cardOk.number ∧
      q2.card_last4 ≠ card2.number) :=
  ⟨success_response_masks_card.1 ⟨none, none⟩ env0 ⟨.err "t", .err "c"⟩
      sIntent (some "pi_1") billing0 none cardOk card2
      (processSimulatedPayment env0 intent100 pm0)
      (by decide) (by decide) (by decide),
    success_response_masks_card.2 ⟨some "k"⟩ env0 (.ok awx777)
      sIntent (some "pi_1") billing0 none cardOk card2
      ⟨some "cf1", "succeeded", 777, "EUR", "card", sliceLast4 cardOk.number,
        env0.nowISO, none⟩
      (by decide) (by decide) (by decide)⟩

theorem referencesExistingIntent_append (intents more : List PaymentIntent)
    (p : Payment) (h : referencesExistingIntent intents p = true) :
    referencesExistingIntent (intents ++ more) p = true := by
  unfold referencesExistingIntent at h ⊢
  cases hp : p.payment_intent_id with
  | none => rw [hp] at h; cases h
  | some pid =>
    rw [hp] at h
    dsimp only at h ⊢
    rw [List.any_append, h]
    rfl

theorem referencesExistingIntent_of_mem (intents : List PaymentIntent)
    (intent : PaymentIntent) (hmem : intent ∈ intents) (p : Payment)
    (hp : p.payment_intent_id = some intent.id) :
    referencesExistingIntent intents p = true := by
  unfold referencesExistingIntent
  rw [hp]
  exact List.any_eq_true.mpr ⟨intent, hmem, by simp⟩

theorem paymentsReferenceIntents_addIntent (s : LedgerState)
    (pi : PaymentIntent) (h : paymentsReferenceIntents s = true) :
    paymentsReferenceIntents ⟨s.paymentIntents ++ [pi], s.payments⟩ = true := by
  unfold paymentsReferenceIntents at h ⊢
  simp only [List.all_eq_true] at h ⊢
  intro p hp
  exact referencesExistingIntent_append _ _ _ (h p hp)

theorem paymentsReferenceIntents_addPayment (s : LedgerState) (p : Payment)
    (h : paymentsReferenceIntents s = true)
    (hp : referencesExistingIntent s.paymentIntents p = true) :
    paymentsReferenceIntents ⟨s.paymentIntents, s.payments ++ [p]⟩ = true := by
  unfold paymentsReferenceIntents at h ⊢
  simp only [List.all_eq_true] at h ⊢
  intro q hq
  rcases List.mem_append.mp hq with hq | hq
  · exact h q hq
  · rw [List.mem_singleton.mp hq]
    exact hp

theorem keyedStep_preserves_refs (cfg : KeyedConfig) (s : LedgerState)
    (op : KeyedOp) (h : paymentsReferenceIntents s = true) :
    paymentsReferenceIntents (keyedStep cfg s op) = true := by
  cases op with
  | webhookOp => exact h
  | createOp env oracle req =>
    show paymentsReferenceIntents
      (createPaymentIntentKeyed cfg env oracle req s).state = true
    unfold createPaymentIntentKeyed createSimulatedPaymentIntent
    cases req.customer with
    | none => exact h
    | some c =>
      dsimp only
      split
      · exact h
      · split
        · exact paymentsReferenceIntents_addIntent s _ h
        · cases oracle with
          | err msg => exact h
          | ok r => exact paymentsReferenceIntents_addIntent s _ h
  | confirmOp env oracle req =>
    show paymentsReferenceIntents
      (confirmPaymentKeyed cfg env oracle req s).state = true
    unfold confirmPaymentKeyed
    cases req.paymentMethod with
    | none => exact h
    | some pm =>
      dsimp only
      cases hfind : s.paymentIntents.find?
          (fun pi => some pi.id == req.paymentIntentId) with
      | none => exact h
      | some intent =>
        have hmem : intent ∈ s.paymentIntents :=
          List.mem_of_find?_eq_some hfind
        have hpid : req.paymentIntentId = some intent.id := by
          have hpred := List.find?_some hfind
          have := beq_iff_eq.mp hpred
          exact this.symm
        dsimp only
        cases validateCardDetails env.year env.month pm.card with
        | some e => exact h
        | none =>
          dsimp only
          split
          · exact paymentsReferenceIntents_addPayment s _ h
              (referencesExistingIntent_of_mem _ intent hmem _ hpid)
          · split
            · cases oracle with
              | err msg => exact h
              | ok r =>
                dsimp only
                split
                · exact paymentsReferenceIntents_addPayment s _ h
                    (referencesExistingIntent_of_mem _ intent hmem _ hpid)
                · exact h
            · exact h

theorem keyedRun_preserves_refs (cfg : KeyedConfig) (ops : List KeyedOp)
    (s : LedgerState) (h : paymentsReferenceIntents s = true) :
    paymentsReferenceIntents (List.foldl (keyedStep cfg) s ops) = true := by
  induction ops generalizing s with
  | nil => exact h
  | cons op rest ih => exact ih _ (keyedStep_preserves_refs cfg s op h)

/-- C9, corrected (amended half).  In the keyed variant - whose confirm
performs the lookup-or-404 and whose webhook never mutates the ledger -
every payment record in every ledger state reachable by any sequence of
create, confirm and webhook operations references a payment intent present
in the intents ledger.  (The variants whose webhook appends payment
records violate the claim: see the counterexample.) -/
theorem payment_references_existing_intent_amended (cfg : KeyedConfig)
    (ops : List KeyedOp) :
    paymentsReferenceIntents (keyedRun cfg ops) = true :=
  keyedRun_preserves_refs cfg ops ⟨[], []⟩ rfl

/-- C9 counterexample: in the `part_000` variant a single
`payment_intent.succeeded` webhook event reaches a ledger whose one
payment record has no `payment_intent_id` at all while the intents ledger
is empty - a payment that references no existing intent. -/
theorem payment_references_existing_intent_counterexample :
    (p0run [.webhookOp env0
        ⟨some "payment_intent.succeeded",
          some ⟨some "evt1", 100, "USD", some "o1"⟩⟩]).payments.length = 1 ∧
    ((p0run [.webhookOp env0
        ⟨some "payment_intent.succeeded",
          some ⟨some "evt1", 100, "USD", some "o1"⟩⟩]).payments.map
      Payment.payment_intent_id) = [none] ∧
    (p0run [.webhookOp env0
        ⟨some "payment_intent.succeeded",
          some ⟨some "evt1", 100, "USD", some "o1"⟩⟩]).paymentIntents = [] ∧
    paymentsReferenceIntents
      (p0run [.webhookOp env0
        ⟨some "payment_intent.succeeded",
          some ⟨some "evt1", 100, "USD", some "o1"⟩⟩]) = false := by
  refine ⟨by decide, by decide, by decide, by decide⟩

theorem webhookRecordsUnlinked_addPayment (s : LedgerState) (p : Payment)
    (h : webhookRecordsUnlinked s = true)
    (hp : (match p.origin with
           | .webhook => p.order_id == none && p.payment_intent_id == none
           | .confirm => true) = true) :
    webhookRecordsUnlinked ⟨s.paymentIntents, s.payments ++ [p]⟩ = true := by
  unfold webhookRecordsUnlinked at h ⊢
  simp only [List.all_eq_true] at h ⊢
  intro q hq
  rcases List.mem_append.mp hq with hq | hq
  · exact h q hq
  · rw [List.mem_singleton.mp hq]
    exact hp

theorem p0step_preserves_unlinked (s : LedgerState) (op : P0Op)
    (h : webhookRecordsUnlinked s = true) :
    webhookRecordsUnlinked (p0step s op) = true := by
  cases op with
  | createOp env oracle req =>
    show webhookRecordsUnlinked
      (createPaymentIntentLive env oracle req s).state = true
    unfold createPaymentIntentLive
    split
    · exact h
    · cases oracle with
      | err msg => exact h
      | ok r => exact h
  | confirmOp env oracle req =>
    show webhookRecordsUnlinked
      (confirmPaymentLive env oracle req s).state = true
    unfold confirmPaymentLive
    cases req.paymentMethod with
    | none => exact h
    | some pm =>
      dsimp only
      cases validateCardDetails env.year env.month pm.card with
      | some e => exact h
      | none =>
        dsimp only
        cases oracle with
        | err msg => exact h
        | ok r =>
          dsimp only
          split
          · exact webhookRecordsUnlinked_addPayment s _ h rfl
          · exact h
  | webhookOp env ev =>
    show webhookRecordsUnlinked (airwallexWebhook env ev s).2 = true
    unfold airwallexWebhook
    split
    · unfold handleSuccessfulPayment
      exact webhookRecordsUnlinked_addPayment s _ h rfl
    · exact h
    · exact h
    · exact h
    · exact h
    · exact h
    · exact h

theorem p0run_unlinked (ops : List P0Op) (s : LedgerState)
    (h : webhookRecordsUnlinked s = true) :
    webhookRecordsUnlinked (List.foldl p0step s ops) = true := by
  induction ops generalizing s with
  | nil => exact h
  | cons op rest ih => exact ih _ (p0step_preserves_unlinked s op h)

/-- C10.  In every `part_000` ledger state reachable by any sequence of
create, confirm and webhook operations, webhook-created payment records
carry neither an `order_id` nor a `payment_intent_id` key, and therefore
`GET /api/payment/order/:orderId` never returns a webhook-created record:
whatever it finds was created by the confirm endpoint. -/
theorem order_lookup_never_returns_webhook_payment (ops : List P0Op)
    (orderId : String) :
    webhookRecordsUnlinked (p0run ops) = true ∧
    ((findPaymentByOrder (p0run ops) orderId).all
      (fun p => p.origin == POrigin.confirm)) = true := by
  have hinv : webhookRecordsUnlinked (p0run ops) = true :=
    p0run_unlinked ops ⟨[], []⟩ rfl
  refine ⟨hinv, ?_⟩
  cases hfind : findPaymentByOrder (p0run ops) orderId with
  | none => rfl
  | some p =>
    have hfind2 : (p0run ops).payments.find?
        (fun q => q.order_id == some orderId) = some p := hfind
    have hpred0 := List.find?_some hfind2
    have hpred : (p.order_id == some orderId) = true := hpred0
    have hmem : p ∈ (p0run ops).payments := List.mem_of_find?_eq_some hfind2
    have hall := List.all_eq_true.mp hinv p hmem
    cases horig : p.origin with
    | confirm => simp [horig]
    | webhook =>
      rw [horig] at hall
      dsimp only at hall
      simp only [Bool.and_eq_true, beq_iff_eq] at hall
      have h2 : p.order_id = none := hall.1
      rw [h2] at hpred
      simp at hpred

end Account
